import Mathlib

set_option linter.unusedVariables false

/-! Verification of the data-cleaning and aggregation layer of the
Coffee_Dataset_Analysis repository.

The embedding models a pandas DataFrame as a column-oriented table: a row
count together with an ordered association list from column name to the
column's list of cell values.  Cell values are Python booleans, strings,
integers, or the missing sentinel (None/NaN).  The two cleaning helpers of
`data_cleaning_functions.py` (`combine_columns`,
`remove_high_missing_columns`) and the filter-then-`value_counts`
aggregation shape shared by the `dash2.py` callbacks are translated
directly from the source.  Python-level failures (KeyError on selecting a
missing column) are modelled by `Option`. -/

/-- A cell value: Python `bool`, `str`, `int`, or the missing sentinel
(None / NaN as produced by `pd.to_numeric(..., errors='coerce')`). -/
inductive Value where
  | bool : Bool → Value
  | str : String → Value
  | int : Int → Value
  | none : Value
deriving DecidableEq, Repr

/-- Python `str.strip()` at the character-list level: drop leading and
trailing whitespace. -/
def stripChars (cs : List Char) : List Char :=
  ((cs.dropWhile Char.isWhitespace).reverse.dropWhile Char.isWhitespace).reverse

/-- Python `s.strip()`. -/
def pyStrip (s : String) : String := String.mk (stripChars s.toList)

/-- The characters after the last occurrence of the character in
Python `s.split(sep)[-1]` for the one-character separator `'('`: if `'('`
does not occur, this is the whole string. -/
def afterLastParen (cs : List Char) : List Char :=
  (cs.reverse.takeWhile (fun c => c ≠ '(')).reverse

/-- The label contributed by a boolean-true cell in
`combine_columns.get_positive_responses` (data_cleaning_functions.py line
33): `col.split('(')[-1].replace(')', '').strip()`.  Note that
`.replace(')', '')` removes every `')'` character, not only trailing
ones. -/
def trueLabel (col : String) : String :=
  String.mk (stripChars ((afterLastParen col.toList).filter (fun c => c ≠ ')')))

/-- Is this the missing sentinel (pandas `isnull`)? -/
def Value.isNone : Value → Bool
  | Value.none => true
  | _ => false

/-- Python `isinstance(value, str)`. -/
def Value.isStr : Value → Bool
  | Value.str _ => true
  | _ => false

/-- Python `isinstance(value, bool)`. -/
def Value.isBool : Value → Bool
  | Value.bool _ => true
  | _ => false

/-- The underlying string of a string cell (Python `str(value)` as applied
on the string branch of `get_positive_responses`). -/
def Value.asStr : Value → String
  | Value.str s => s
  | _ => ""

/-- Python `value == True`: true for the boolean `True` and for the
integer `1` (Python numeric/boolean cross-type equality); `NaN == True`
and `None == True` are false. -/
def Value.pyTrueEq : Value → Bool
  | Value.bool b => b
  | Value.int n => n = 1
  | _ => false

/-- `get_positive_responses` (data_cleaning_functions.py lines 30-36):
from the row of the selected sub-frame, zipped with the group's column
names, keep `col.split('(')[-1].replace(')', '').strip()` when the value
compares equal to `True`, the stripped string when the value is a string
that is non-empty after stripping, and nothing otherwise. -/
def get_positive_responses (columns_to_combine : List String) (row : List Value) : List String :=
  (columns_to_combine.zip row).filterMap (fun cv =>
    if cv.2.pyTrueEq then Option.some (trueLabel cv.1)
    else if cv.2.isStr && !(pyStrip cv.2.asStr == "") then Option.some (pyStrip cv.2.asStr)
    else Option.none)

/-- Python `separator.join(labels)`. -/
def joinSep (sep : String) : List String → String
  | [] => ""
  | [x] => x
  | x :: y :: xs => x ++ sep ++ joinSep sep (y :: xs)

/-- A pandas DataFrame, column-oriented: a row count and an ordered list
of (column name, column values) pairs.  Well-formedness (`Table.wf`)
states that every column has exactly `nrows` values. -/
structure Table where
  nrows : Nat
  cols : List (String × List Value)
deriving DecidableEq, Repr

/-- Every column holds one value per row. -/
def Table.wf (t : Table) : Bool := t.cols.all (fun p => p.2.length == t.nrows)

/-- `df[c]` for a single column name: the first column named `c`, if any
(pandas raises KeyError when absent, modelled by `Option.none`). -/
def Table.getCol (t : Table) (c : String) : Option (List Value) :=
  (t.cols.find? (fun p => p.1 = c)).map Prod.snd

/-- `df[cs]` for a list of column names: all of them, in the given order;
pandas raises KeyError when any is absent (`Option.none`). -/
def selectCols (t : Table) : List String → Option (List (List Value))
  | [] => Option.some []
  | c :: rest =>
    match t.getCol c, selectCols t rest with
    | Option.some v, Option.some vs => Option.some (v :: vs)
    | _, _ => Option.none

/-- `df[c] = vs`: pandas column assignment mutates the frame, overwriting
the column in place when `c` already exists and appending it at the end
otherwise. -/
def Table.setCol (t : Table) (c : String) (vs : List Value) : Table :=
  if t.cols.any (fun p => p.1 = c) then
    ⟨t.nrows, t.cols.map (fun p => if p.1 = c then (p.1, vs) else p)⟩
  else
    ⟨t.nrows, t.cols ++ [(c, vs)]⟩

/-- `df.drop(columns=cs, errors='ignore')`: remove every column whose
name is listed, silently skipping absent ones; returns a new frame. -/
def Table.dropCols (t : Table) (cs : List String) : Table :=
  ⟨t.nrows, t.cols.filter (fun p => !(cs.contains p.1))⟩

/-- Row `i` of the selected sub-frame `df[columns_to_combine]`: the
`i`-th value of each selected column, in group order. -/
def rowAt (sel : List (List Value)) (i : Nat) : List Value :=
  sel.map (fun c => c.getD i Value.none)

/-- The combined column produced by
`df[columns_to_combine].apply(lambda row: separator.join(get_positive_responses(row)), axis=1)`
(data_cleaning_functions.py line 39): one joined string per row. -/
def combinedSeries (columns_to_combine : List String) (separator : String)
    (sel : List (List Value)) (n : Nat) : List Value :=
  (List.range n).map (fun i =>
    Value.str (joinSep separator (get_positive_responses columns_to_combine (rowAt sel i))))

/-- `combine_columns` (data_cleaning_functions.py lines 23-44).  The
column selection `df[columns_to_combine]` raises KeyError when a group
column is absent (`Option.none`).  On success the result is the pair of
the returned table (combined column assigned, group columns dropped) and
the state of the caller's `df` after the call: the assignment
`df[new_column_name] = ...` mutates the input frame, while the drop
builds a fresh frame. -/
def combine_columns (df : Table) (columns_to_combine : List String)
    (new_column_name : String) (separator : String) : Option (Table × Table) :=
  match selectCols df columns_to_combine with
  | Option.none => Option.none
  | Option.some sel =>
    let df1 := df.setCol new_column_name
      (combinedSeries columns_to_combine separator sel df.nrows)
    Option.some (df1.dropCols columns_to_combine, df1)

/-- Number of missing cells in a column (`df.isnull()` summed). -/
def missingCount (vs : List Value) : Nat := (vs.filter Value.isNone).length

/-- Is a column selected for dropping by
`missing_proportion[missing_proportion > threshold]`
(data_cleaning_functions.py lines 69-72)?  `df.isnull().mean()` on a
zero-row frame is NaN, and `NaN > threshold` is false for every
threshold, so no column is ever dropped from a zero-row frame; otherwise
the mean is the exact fraction of missing cells. -/
def dropByMissing (nrows : Nat) (threshold : ℚ) (vs : List Value) : Bool :=
  if nrows = 0 then false
  else decide ((missingCount vs : ℚ) / (nrows : ℚ) > threshold)

/-- `remove_high_missing_columns` (data_cleaning_functions.py lines
61-81): drop the columns whose missing proportion strictly exceeds the
threshold; `df.drop` builds a new frame, so the input is not mutated (the
`print` on line 78 is advisory output, not modelled). -/
def remove_high_missing_columns (df : Table) (threshold : ℚ) : Table :=
  ⟨df.nrows, df.cols.filter (fun p => !(dropByMissing df.nrows threshold p.2))⟩

/-- Python/pandas element-wise `==` as used by `df[col] == value`:
equality within a type, boolean/integer cross-type equality
(`1 == True`), and false on any comparison involving the missing
sentinel. -/
def pyEq : Value → Value → Bool
  | Value.bool a, Value.bool b => a = b
  | Value.bool a, Value.int b => (if a then (1 : Int) else 0) = b
  | Value.int a, Value.bool b => a = (if b then (1 : Int) else 0)
  | Value.int a, Value.int b => a = b
  | Value.str a, Value.str b => a = b
  | _, _ => false

/-- Boolean-mask row selection applied to one column: keep the values at
the positions where the mask is true. -/
def applyMask (mask : List Bool) (vs : List Value) : List Value :=
  ((mask.zip vs).filter Prod.fst).map Prod.snd

/-- `df[df[c] == v]` (dash2.py line 248): build the boolean mask from
column `c` and keep the matching rows of every column; KeyError
(`Option.none`) when `c` is absent. -/
def Table.filterRowsEq (t : Table) (c : String) (v : Value) : Option Table :=
  (t.getCol c).map (fun fv =>
    let mask := fv.map (fun x => pyEq x v)
    ⟨(mask.filter id).length, t.cols.map (fun p => (p.1, applyMask mask p.2))⟩)

/-- `series.value_counts()` (dash2.py lines 68, 251, 293): occurrence
counts of each distinct non-missing value (missing values are excluded by
pandas' default `dropna=True`).  pandas orders buckets by descending
count; no consumer in the repository depends on the order, and none is
guaranteed by the spec, so the model lists buckets in order of first
appearance from the end of deduplication. -/
def value_counts (vs : List Value) : List (Value × Nat) :=
  let nn := vs.filter (fun v => !v.isNone)
  nn.dedup.map (fun k => (k, nn.count k))

/-- The filter-then-count shape shared by the dash2.py callbacks
(`update_age_consumption` lines 247-252, `update_political_chart` lines
286-294, and the module-level `favorite_coffee_counts` lines 68-69):
optionally select the rows whose `filter_column` value equals the given
value (the match-all case uses the whole frame, as in
`update_political_chart` with an empty selection), then take the
`value_counts` of `group_column`. -/
def filtered_count (t : Table) (filter_column : String) (filter_value : Option Value)
    (group_column : String) : Option (List (Value × Nat)) :=
  (match filter_value with
   | Option.none => Option.some t
   | Option.some v => t.filterRowsEq filter_column v).bind
    (fun ft => (ft.getCol group_column).map value_counts)

/-- The boolean-true label exactly as the specification words it: "the
column's own name with any parenthesized qualifier extracted, trailing
parenthesis characters stripped and whitespace trimmed" — i.e. the part
after the last `'('`, with trailing `')'` characters (only) removed, then
stripped.  Used to compare the spec's wording against the source's
`trueLabel`. -/
def claimTrueLabel (col : String) : String :=
  String.mk (stripChars (((afterLastParen col.toList).reverse.dropWhile (fun c => c = ')')).reverse))

/-- The per-cell label contribution exactly as claim C1 words it: a
boolean-true value contributes `claimTrueLabel` of the column name, a
non-empty string contributes the string trimmed, and a false, missing or
empty-string value contributes nothing. -/
def claimLabel (col : String) (v : Value) : Option String :=
  if v = Value.bool true then Option.some (claimTrueLabel col)
  else match v with
    | Value.str s => if s ≠ "" then Option.some (pyStrip s) else Option.none
    | _ => Option.none

/-- The ordered selected labels of one row, as claim C1 words them. -/
def claimLabels (cols : List String) (row : List Value) : List String :=
  (cols.zip row).filterMap (fun cv => claimLabel cv.1 cv.2)

/-- The per-cell label contribution as amended: a boolean-true value
contributes the column name with the part after the last `'('` taken and
every `')'` character removed, then stripped; a string value that is
non-empty after stripping contributes the stripped string; anything else
(false, missing, empty or whitespace-only string) contributes nothing. -/
def amendedLabel (col : String) (v : Value) : Option String :=
  if v = Value.bool true then Option.some (trueLabel col)
  else match v with
    | Value.str s => if pyStrip s ≠ "" then Option.some (pyStrip s) else Option.none
    | _ => Option.none

/-- The ordered selected labels of one row, as amended. -/
def amendedLabels (cols : List String) (row : List Value) : List String :=
  (cols.zip row).filterMap (fun cv => amendedLabel cv.1 cv.2)

/-! Helper lemmas about the table operations. -/

/-- Setting a name that occurs in the association list, then looking it
up, finds the new values. -/
lemma find?_map_set (l : List (String × List Value)) (c : String) (vs : List Value)
    (h : ∃ p ∈ l, p.1 = c) :
    (((l.map (fun p => if p.1 = c then (p.1, vs) else p)).find?
        (fun p => p.1 = c)).map Prod.snd) = Option.some vs := by
  induction l with
  | nil => simp at h
  | cons q l ih =>
    by_cases hq : q.1 = c
    · rw [List.map_cons, if_pos hq, List.find?_cons_of_pos _ (by simpa using hq)]
      rfl
    · obtain ⟨p, hp, hpc⟩ := h
      rcases List.mem_cons.mp hp with hh | hmem
      · exact absurd (hh ▸ hpc) hq
      · rw [List.map_cons, if_neg hq, List.find?_cons_of_neg _ (by simpa using hq)]
        exact ih ⟨p, hmem, hpc⟩

/-- A name that occurs nowhere in the association list is not found. -/
lemma find?_eq_none_of_not_mem (l : List (String × List Value)) (c : String)
    (h : ∀ p ∈ l, p.1 ≠ c) :
    l.find? (fun p => p.1 = c) = Option.none :=
  List.find?_eq_none.mpr (fun p hp => by simpa using h p hp)

/-- Looking up the just-assigned column returns the assigned values. -/
lemma getCol_setCol_self (t : Table) (c : String) (vs : List Value) :
    (t.setCol c vs).getCol c = Option.some vs := by
  unfold Table.setCol Table.getCol
  by_cases h : t.cols.any (fun p => p.1 = c)
  · rw [if_pos h]
    exact find?_map_set t.cols c vs (by simpa using h)
  · rw [if_neg h]
    have hnone : t.cols.find? (fun p => p.1 = c) = Option.none := by
      refine find?_eq_none_of_not_mem t.cols c (fun p hp hpc => h ?_)
      simp only [List.any_eq_true]
      exact ⟨p, hp, by simpa using hpc⟩
    simp only [List.find?_append, hnone, Option.none_or]
    rw [List.find?_cons_of_pos _ (by simp)]
    rfl

/-- Filtering out columns other than `c` does not change the lookup of
`c`. -/
lemma find?_filter_not_contains (l : List (String × List Value)) (cs : List String)
    (c : String) (hc : ¬ c ∈ cs) :
    (l.filter (fun p => !(cs.contains p.1))).find? (fun p => p.1 = c)
      = l.find? (fun p => p.1 = c) := by
  induction l with
  | nil => rfl
  | cons q l ih =>
    by_cases hq : q.1 = c
    · have hkeep : (!(cs.contains q.1)) = true := by
        rw [hq]
        simpa using hc
      rw [List.filter_cons, if_pos hkeep, List.find?_cons_of_pos _ (by simpa using hq),
        List.find?_cons_of_pos _ (by simpa using hq)]
    · cases hkeep : (!(cs.contains q.1)) with
      | true =>
        rw [List.filter_cons, if_pos hkeep, List.find?_cons_of_neg _ (by simpa using hq),
          List.find?_cons_of_neg _ (by simpa using hq)]
        exact ih
      | false =>
        rw [List.filter_cons, if_neg (by rw [hkeep]; exact Bool.false_ne_true),
          List.find?_cons_of_neg _ (by simpa using hq)]
        exact ih

/-- Dropping columns other than `c` does not change the lookup of `c`. -/
lemma getCol_dropCols_of_not_mem (t : Table) (cs : List String) (c : String)
    (hc : ¬ c ∈ cs) :
    (t.dropCols cs).getCol c = t.getCol c := by
  unfold Table.dropCols Table.getCol
  rw [find?_filter_not_contains t.cols cs c hc]

/-- `df[cs]` succeeds when every listed column is present. -/
lemma selectCols_isSome_of_all_present (t : Table) (cs : List String)
    (h : ∀ c ∈ cs, (t.getCol c).isSome) :
    ∃ sel, selectCols t cs = Option.some sel := by
  induction cs with
  | nil => exact ⟨[], rfl⟩
  | cons c cs ih =>
    obtain ⟨v, hv⟩ := Option.isSome_iff_exists.mp (h c (List.mem_cons_self c cs))
    obtain ⟨sel, hsel⟩ := ih (fun d hd => h d (List.mem_cons_of_mem _ hd))
    exact ⟨v :: sel, by simp [selectCols, hv, hsel]⟩

/-- `df[cs]` fails (KeyError) when some listed column is absent. -/
lemma selectCols_none_of_missing (t : Table) (cs : List String) (c : String)
    (hc : c ∈ cs) (hmiss : t.getCol c = Option.none) :
    selectCols t cs = Option.none := by
  induction cs with
  | nil => simp at hc
  | cons d cs ih =>
    by_cases hd : d = c
    · subst hd
      simp [selectCols, hmiss]
    · have hmem : c ∈ cs := by
        rcases List.mem_cons.mp hc with hh | hh
        · exact absurd hh.symm hd
        · exact hh
      cases hgd : t.getCol d with
      | none => simp [selectCols, hgd]
      | some v => simp [selectCols, hgd, ih hmem]

/-- Indexing into a tabulated list. -/
lemma getD_range_map {α : Type} (f : Nat → α) (n i : Nat) (d : α) (h : i < n) :
    ((List.range n).map f).getD i d = f i := by
  rw [List.getD_eq_getElem?_getD, List.getElem?_map, List.getElem?_range h]
  rfl

/-- On boolean, string and missing cells, the source's per-cell label in
`get_positive_responses` coincides with the amended claim-side label.
(Only a Python integer `1` could separate them, via `1 == True`, and an
indicator column never holds integers.) -/
lemma label_agree_cell (c : String) (v : Value)
    (hv : v.isBool = true ∨ v.isStr = true ∨ v = Value.none) :
    (if v.pyTrueEq then Option.some (trueLabel c)
     else if v.isStr && !(pyStrip v.asStr == "") then Option.some (pyStrip v.asStr)
     else Option.none) = amendedLabel c v := by
  cases v with
  | bool b => cases b <;> simp [amendedLabel, Value.pyTrueEq, Value.isStr]
  | str s =>
    by_cases hs : pyStrip s = ""
    · simp [amendedLabel, Value.pyTrueEq, Value.isStr, Value.asStr, hs]
    · simp [amendedLabel, Value.pyTrueEq, Value.isStr, Value.asStr, hs]
  | int n => simp [Value.isBool, Value.isStr] at hv
  | none => simp [amendedLabel, Value.pyTrueEq, Value.isStr]

/-- Over a row of boolean/string/missing cells, the source's label list
equals the amended claim-side label list. -/
lemma labels_agree (cols : List String) (row : List Value)
    (h : ∀ v ∈ row, v.isBool = true ∨ v.isStr = true ∨ v = Value.none) :
    get_positive_responses cols row = amendedLabels cols row := by
  unfold get_positive_responses amendedLabels
  refine List.filterMap_congr (fun cv hcv => ?_)
  obtain ⟨a, b⟩ := cv
  exact label_agree_cell a b (h b (List.of_mem_zip hcv).2)

/-- Every cell of a materialised row of the selected sub-frame is a value
of one of its columns (boolean, string or missing, for an indicator
group), or the padding sentinel. -/
lemma rowAt_cases (sel : List (List Value)) (i : Nat)
    (hind : ∀ c ∈ sel, ∀ v ∈ c, v.isBool = true ∨ v.isStr = true ∨ v = Value.none) :
    ∀ v ∈ rowAt sel i, v.isBool = true ∨ v.isStr = true ∨ v = Value.none := by
  intro v hv
  unfold rowAt at hv
  obtain ⟨c, hc, hcv⟩ := List.mem_map.mp hv
  rcases Nat.lt_or_ge i c.length with hlt | hge
  · rw [List.getD_eq_getElem c Value.none hlt] at hcv
    rcases hind c hc _ (List.getElem_mem hlt) with hb | hs | hn
    · left; rw [← hcv]; exact hb
    · right; left; rw [← hcv]; exact hs
    · right; right; rw [← hcv]; exact hn
  · rw [List.getD_eq_default c Value.none hge] at hcv
    right; right; exact hcv.symm

/-- Masking with an all-false mask keeps no row. -/
lemma applyMask_all_false (mask : List Bool) (vs : List Value)
    (h : ∀ b ∈ mask, b = false) :
    applyMask mask vs = [] := by
  unfold applyMask
  rw [List.filter_eq_nil_iff.mpr, List.map_nil]
  intro pr hpr
  rw [h pr.1 (List.of_mem_zip hpr).1]
  simp

/-- Finding by name commutes with a per-column transformation that keeps
names. -/
lemma find?_map_pair (l : List (String × List Value)) (f : List Value → List Value)
    (c : String) :
    ((l.map (fun p => (p.1, f p.2))).find? (fun p => p.1 = c))
      = (l.find? (fun p => p.1 = c)).map (fun p => (p.1, f p.2)) := by
  induction l with
  | nil => rfl
  | cons q l ih =>
    by_cases hq : q.1 = c
    · rw [List.map_cons, List.find?_cons_of_pos _ (by simpa using hq),
        List.find?_cons_of_pos _ (by simpa using hq)]
      rfl
    · rw [List.map_cons, List.find?_cons_of_neg _ (by simpa using hq),
        List.find?_cons_of_neg _ (by simpa using hq)]
      exact ih

/-- In a duplicate-free list, the entries belonging to a duplicate-free
sublist of names are exactly that sublist, counted. -/
lemma length_filter_mem_of_nodup (l G : List String) (hl : l.Nodup) (hG : G.Nodup)
    (hsub : ∀ c ∈ G, c ∈ l) :
    (l.filter (fun x => G.contains x)).length = G.length := by
  rw [← List.toFinset_card_of_nodup (hl.filter _), List.toFinset_filter]
  have : l.toFinset.filter (fun x => G.contains x) = G.toFinset := by
    ext x
    constructor
    · intro hx
      have hxG := (Finset.mem_filter.mp hx).2
      simpa using hxG
    · intro hx
      have hxG : x ∈ G := by simpa using hx
      exact Finset.mem_filter.mpr ⟨by simpa using hsub x hxG, by simpa using hxG⟩
  rw [this, List.toFinset_card_of_nodup hG]

/-! The claims. -/

/-- C1 counterexample: the claim's label description fails on the code.
For the indicator column literally named "A(B)C" with a `True` cell, the
code's `col.split('(')[-1].replace(')', '').strip()` yields "BC" (every
`')'` removed), while the claim's "trailing parenthesis characters
stripped" reading yields "B)C"; and for the whitespace-only string cell
" " the code contributes nothing while the claim's "non-empty string
value contributes that string trimmed" reading contributes "".  The
combined value is "BC", not the claim's "B)C; ". -/
theorem C1_counterexample :
    (combine_columns ⟨1, [("A(B)C", [Value.bool true]), ("S", [Value.str " "])]⟩
        ["A(B)C", "S"] "D" "; ").map (fun p => p.1.getCol "D")
      = Option.some (Option.some [Value.str "BC"])
    ∧ joinSep "; " (claimLabels ["A(B)C", "S"] [Value.bool true, Value.str " "]) = "B)C; "
    ∧ ("BC" : String) ≠ "B)C; " := by decide

/-- C1 (amended): for every table, every ordered indicator column group
present in the table (boolean/string/missing cells, the new name not
among the group), and every separator, each row's value in the combined column of
the returned table is the join, by the separator and in group order, of
the labels of exactly the selected entries — where a boolean-true cell
contributes the column's own name with the part after the last opening
parenthesis taken, every closing-parenthesis character removed, and
whitespace trimmed; a string cell that is non-empty after trimming
contributes that string trimmed; and a false, missing, empty or
whitespace-only string cell contributes nothing — the join of the empty
label list being the empty string. -/
theorem C1_combined_row_values (df : Table) (ctc : List String) (name sep : String)
    (sel : List (List Value)) (i : Nat)
    (hsel : selectCols df ctc = Option.some sel)
    (hname : ¬ name ∈ ctc) (hi : i < df.nrows)
    (hind : ∀ c ∈ sel, ∀ v ∈ c, v.isBool = true ∨ v.isStr = true ∨ v = Value.none) :
    ∃ r after out, combine_columns df ctc name sep = Option.some (r, after)
      ∧ r.getCol name = Option.some out
      ∧ out.length = df.nrows
      ∧ out.getD i Value.none
          = Value.str (joinSep sep (amendedLabels ctc (rowAt sel i))) := by
  refine ⟨(df.setCol name (combinedSeries ctc sep sel df.nrows)).dropCols ctc,
    df.setCol name (combinedSeries ctc sep sel df.nrows),
    combinedSeries ctc sep sel df.nrows, ?_, ?_, ?_, ?_⟩
  · unfold combine_columns
    rw [hsel]
  · rw [getCol_dropCols_of_not_mem _ _ _ hname, getCol_setCol_self]
  · unfold combinedSeries
    rw [List.length_map, List.length_range]
  · unfold combinedSeries
    rw [getD_range_map _ _ _ _ hi, labels_agree ctc (rowAt sel i) (rowAt_cases sel i hind)]

/-- Witness for C1: the spec's own concrete scenario — columns
"Prefers (Latte)"=True, "Prefers (Cortado)"=False, "OtherDrink"=""
combined into "Drinks" with separator "; " yield the row value
"Latte". -/
theorem C1_witness :
    (∃ r after out,
        combine_columns
            ⟨1, [("Prefers (Latte)", [Value.bool true]),
                 ("Prefers (Cortado)", [Value.bool false]),
                 ("OtherDrink", [Value.str ""])]⟩
            ["Prefers (Latte)", "Prefers (Cortado)", "OtherDrink"] "Drinks" "; "
          = Option.some (r, after)
        ∧ r.getCol "Drinks" = Option.some out
        ∧ out.length = 1
        ∧ out.getD 0 Value.none
            = Value.str (joinSep "; " (amendedLabels
                ["Prefers (Latte)", "Prefers (Cortado)", "OtherDrink"]
                (rowAt [[Value.bool true], [Value.bool false], [Value.str ""]] 0))))
    ∧ joinSep "; " (amendedLabels
        ["Prefers (Latte)", "Prefers (Cortado)", "OtherDrink"]
        (rowAt [[Value.bool true], [Value.bool false], [Value.str ""]] 0)) = "Latte" :=
  ⟨C1_combined_row_values
      ⟨1, [("Prefers (Latte)", [Value.bool true]),
           ("Prefers (Cortado)", [Value.bool false]),
           ("OtherDrink", [Value.str ""])]⟩
      ["Prefers (Latte)", "Prefers (Cortado)", "OtherDrink"] "Drinks" "; "
      [[Value.bool true], [Value.bool false], [Value.str ""]] 0
      (by decide) (by decide) (by decide) (by decide),
    by decide⟩

/-- C2 counterexample: when the new column name already names a column of
T outside the group, the assignment overwrites that column in place, so
the result has exactly `|G|` fewer columns than T (not `|G| - 1` fewer),
and the overwritten column's original values are gone.  Here T has
columns "A" and "D", the group is ["A"], and the new name is "D": the
claim requires 2 - 1 + 1 = 2 columns and the pair ("D", ["x"])
preserved, but the result has 1 column and the pair is gone. -/
theorem C2_counterexample :
    (combine_columns ⟨1, [("A", [Value.bool true]), ("D", [Value.str "x"])]⟩
        ["A"] "D" "; ").map (fun p => (p.1.cols.length, p.1.cols.contains ("D", [Value.str "x"])))
      = Option.some (1, false) := by decide

/-- C2 (amended): for every table T with duplicate-free column names,
every duplicate-free indicator group G of columns present in T, and
every new column name that is not an existing column of T,
`combine_columns` returns a table with exactly `|G|` fewer columns than
T plus one additional column named `name`, and every column of T outside
G is still present with its row values unchanged. -/
theorem C2_column_arithmetic (df : Table) (G : List String) (name sep : String)
    (hG : ∀ c ∈ G, c ∈ df.cols.map Prod.fst) (hGnd : G.Nodup)
    (hnd : (df.cols.map Prod.fst).Nodup)
    (hname : ¬ name ∈ df.cols.map Prod.fst) :
    ∃ r after, combine_columns df G name sep = Option.some (r, after)
      ∧ r.cols.length + G.length = df.cols.length + 1
      ∧ (r.getCol name).isSome
      ∧ ∀ p ∈ df.cols, ¬ p.1 ∈ G → p ∈ r.cols := by
  have hGcols : ∀ c ∈ G, (df.getCol c).isSome := by
    intro c hc
    obtain ⟨p, hp, hpc⟩ := List.mem_map.mp (hG c hc)
    unfold Table.getCol
    cases hfind : df.cols.find? (fun q => q.1 = c) with
    | none =>
      rw [List.find?_eq_none] at hfind
      exact absurd (by simpa using hpc) (hfind p hp)
    | some q => rfl
  obtain ⟨sel, hsel⟩ := selectCols_isSome_of_all_present df G hGcols
  have hnoex : ¬ df.cols.any (fun p => p.1 = name) := by
    intro hany
    obtain ⟨p, hp, hpn⟩ := List.any_eq_true.mp hany
    exact hname (List.mem_map.mpr ⟨p, hp, by simpa using hpn⟩)
  have hnameG : ¬ name ∈ G := fun hmem => hname (hG name hmem)
  refine ⟨(df.setCol name (combinedSeries G sep sel df.nrows)).dropCols G,
    df.setCol name (combinedSeries G sep sel df.nrows), ?_, ?_, ?_, ?_⟩
  · unfold combine_columns
    rw [hsel]
  · unfold Table.setCol
    rw [if_neg hnoex]
    unfold Table.dropCols
    simp only [List.filter_append]
    rw [List.length_append]
    have hkeepnew : List.filter (fun p => !(G.contains p.1))
        [(name, combinedSeries G sep sel df.nrows)]
        = [(name, combinedSeries G sep sel df.nrows)] := by
      rw [List.filter_cons, if_pos (by simpa using hnameG)]
      rfl
    rw [hkeepnew]
    have hsplit : df.cols.length
        = (df.cols.filter (fun p => !(G.contains p.1))).length
          + (df.cols.filter (fun p => G.contains p.1)).length := by
      rw [← List.countP_eq_length_filter, ← List.countP_eq_length_filter]
      have := df.cols.length_eq_countP_add_countP (fun p => G.contains p.1)
      rw [this]
      have hcong : List.countP (fun a => decide ¬(G.contains a.1) = true) df.cols
          = List.countP (fun p => !(G.contains p.1)) df.cols := by
        refine List.countP_congr (fun p hp => ?_)
        cases hGc : G.contains p.1 <;> simp [hGc]
      rw [Nat.add_comm, hcong]
    have hdropcount : (df.cols.filter (fun p => G.contains p.1)).length = G.length := by
      have hmapped : (df.cols.filter (fun p => G.contains p.1)).length
          = ((df.cols.map Prod.fst).filter (fun x => G.contains x)).length := by
        rw [← List.countP_eq_length_filter, ← List.countP_eq_length_filter, List.countP_map]
        rfl
      rw [hmapped]
      exact length_filter_mem_of_nodup (df.cols.map Prod.fst) G hnd hGnd hG
    rw [List.length_singleton, hsplit, hdropcount]
    omega
  · rw [getCol_dropCols_of_not_mem _ _ _ hnameG, getCol_setCol_self]
    rfl
  · intro p hp hpG
    unfold Table.setCol
    rw [if_neg hnoex]
    unfold Table.dropCols
    refine List.mem_filter.mpr ⟨List.mem_append_left _ hp, ?_⟩
    simpa using hpG

/-- Witness for C2: combining the single-column group
["Prefers (Latte)"] of a two-column table into the fresh column "Drinks"
keeps the column count at 2 and preserves the untouched column. -/
theorem C2_witness :
    ∃ r after, combine_columns ⟨1, [("Prefers (Latte)", [Value.bool true]),
        ("Keep", [Value.int 5])]⟩ ["Prefers (Latte)"] "Drinks" "; "
        = Option.some (r, after)
      ∧ r.cols.length + 1 = 3
      ∧ (r.getCol "Drinks").isSome
      ∧ ∀ p ∈ [("Prefers (Latte)", [Value.bool true]), ("Keep", [Value.int 5])],
          ¬ p.1 ∈ ["Prefers (Latte)"] → p ∈ r.cols :=
  C2_column_arithmetic ⟨1, [("Prefers (Latte)", [Value.bool true]), ("Keep", [Value.int 5])]⟩
    ["Prefers (Latte)"] "Drinks" "; " (by decide) (by decide) (by decide) (by decide)

/-- C3 counterexample: `combine_columns` is not free of side effects on
the input table.  The assignment `df[new_column_name] = ...` on line 39
mutates the caller's frame: after the call the input has gained the
combined column, so its post-call state differs from its original
state. -/
theorem C3_counterexample :
    (combine_columns ⟨1, [("Prefers (Latte)", [Value.bool true])]⟩
        ["Prefers (Latte)"] "Drinks" "; ").map Prod.snd
      ≠ Option.some (⟨1, [("Prefers (Latte)", [Value.bool true])]⟩ : Table) := by decide

/-- C3 (amended): the only side effect of `combine_columns` is on the
input table, which gains (or has overwritten in place) the single
combined column: after a successful call the input's row count is
unchanged, every input column not named `new_column_name` is still
present with its values unchanged, and the input's column-name sequence
is either exactly what it was (overwrite) or what it was with `name`
appended (fresh name).  The group columns are removed only from the
returned table, never from the input. -/
theorem C3_mutation_adds_only_combined (df : Table) (ctc : List String)
    (name sep : String) (r after : Table)
    (h : combine_columns df ctc name sep = Option.some (r, after)) :
    after.nrows = df.nrows
    ∧ (∀ p ∈ df.cols, p.1 ≠ name → p ∈ after.cols)
    ∧ (after.cols.map Prod.fst = df.cols.map Prod.fst
       ∨ after.cols.map Prod.fst = df.cols.map Prod.fst ++ [name]) := by
  unfold combine_columns at h
  cases hsel : selectCols df ctc with
  | none => rw [hsel] at h; exact absurd h (by simp)
  | some sel =>
    rw [hsel] at h
    simp only [Option.some.injEq, Prod.mk.injEq] at h
    obtain ⟨hr, hafter⟩ := h
    rw [← hafter]
    unfold Table.setCol
    by_cases hex : df.cols.any (fun p => p.1 = name)
    · rw [if_pos hex]
      refine ⟨rfl, ?_, Or.inl ?_⟩
      · intro p hp hpn
        show p ∈ List.map (fun p =>
          if p.1 = name then (p.1, combinedSeries ctc sep sel df.nrows) else p) df.cols
        have hmem := List.mem_map_of_mem
          (fun q : String × List Value =>
            if q.1 = name then (q.1, combinedSeries ctc sep sel df.nrows) else q) hp
        simpa [hpn] using hmem
      · rw [List.map_map]
        refine List.map_congr_left (fun p hp => ?_)
        by_cases hpn : p.1 = name <;> simp [hpn]
    · rw [if_neg hex]
      refine ⟨rfl, ?_, Or.inr ?_⟩
      · intro p hp hpn
        exact List.mem_append_left _ hp
      · rw [List.map_append]
        rfl

/-- Witness for C3's amended theorem at a concrete call. -/
theorem C3_witness :
    ((⟨1, [("Prefers (Latte)", [Value.bool true]),
        ("Drinks", [Value.str "Latte"])]⟩ : Table).nrows = 1)
    ∧ (∀ p ∈ [("Prefers (Latte)", [Value.bool true])], p.1 ≠ "Drinks" →
        p ∈ [("Prefers (Latte)", [Value.bool true]), ("Drinks", [Value.str "Latte"])])
    ∧ ([("Prefers (Latte)", [Value.bool true]),
          ("Drinks", [Value.str "Latte"])].map Prod.fst
          = [("Prefers (Latte)", [Value.bool true])].map Prod.fst
       ∨ [("Prefers (Latte)", [Value.bool true]),
          ("Drinks", [Value.str "Latte"])].map Prod.fst
          = [("Prefers (Latte)", [Value.bool true])].map Prod.fst ++ ["Drinks"]) :=
  C3_mutation_adds_only_combined ⟨1, [("Prefers (Latte)", [Value.bool true])]⟩
    ["Prefers (Latte)"] "Drinks" "; "
    ⟨1, [("Drinks", [Value.str "Latte"])]⟩
    ⟨1, [("Prefers (Latte)", [Value.bool true]), ("Drinks", [Value.str "Latte"])]⟩
    (by decide)

/-- C4 counterexample: calling `combine_columns` with a group column
absent from the table fails (pandas KeyError from the selection
`df[columns_to_combine]` on line 39, modelled by `Option.none`) instead
of succeeding with a no-op removal. -/
theorem C4_counterexample :
    combine_columns ⟨1, [("A", [Value.bool true])]⟩ ["X"] "D" "; " = Option.none := by decide

/-- C4 (amended): for every table and every column group containing a
column absent from the table, `combine_columns` fails: the column
selection `df[columns_to_combine]` raises KeyError before the drop is
reached, so the `errors='ignore'` of the drop never applies and the
operation is not an idempotent no-op on already-removed groups. -/
theorem C4_missing_group_column_fails (df : Table) (cs : List String)
    (name sep : String) (c : String) (hc : c ∈ cs)
    (hmiss : df.getCol c = Option.none) :
    combine_columns df cs name sep = Option.none := by
  unfold combine_columns
  rw [selectCols_none_of_missing df cs c hc hmiss]

/-- Witness for C4's amended theorem at a concrete call. -/
theorem C4_witness :
    combine_columns ⟨2, [("A", [Value.bool true, Value.bool false])]⟩
      ["A", "B"] "D2" ", " = Option.none :=
  C4_missing_group_column_fails ⟨2, [("A", [Value.bool true, Value.bool false])]⟩
    ["A", "B"] "D2" ", " "B" (by decide) (by decide)
/-- C5: over a non-empty table, a column of T is kept by
`remove_high_missing_columns(T, t)` exactly when its missing proportion
(missing cells divided by row count) is not strictly greater than the
threshold — equivalently, it is dropped iff the proportion strictly
exceeds the threshold. -/
theorem C5_kept_iff_not_exceeding (df : Table) (t : ℚ) (p : String × List Value)
    (h0 : 0 < df.nrows) (hp : p ∈ df.cols) :
    p ∈ (remove_high_missing_columns df t).cols
      ↔ ¬ ((missingCount p.2 : ℚ) / (df.nrows : ℚ) > t) := by
  have hmem : p ∈ (remove_high_missing_columns df t).cols
      ↔ p ∈ df.cols ∧ (!(dropByMissing df.nrows t p.2)) = true := List.mem_filter
  rw [hmem]
  unfold dropByMissing
  rw [if_neg (Nat.pos_iff_ne_zero.mp h0)]
  simp [hp]

/-- Witness for C5: the spec's concrete scenario — a 10-row table whose
column "Notes" is missing in 9 rows; the kept-iff equivalence applies at
threshold 9/10 (where 9/10 is not strictly greater, so the column is
kept) and at threshold 8/10 (where 9/10 strictly exceeds, so it is
dropped). -/
theorem C5_witness :
    (("Notes", List.replicate 9 Value.none ++ [Value.str "note"])
        ∈ (remove_high_missing_columns
            ⟨10, [("Notes", List.replicate 9 Value.none ++ [Value.str "note"])]⟩
            (9/10)).cols
      ↔ ¬ ((missingCount (List.replicate 9 Value.none ++ [Value.str "note"]) : ℚ)
            / ((10 : Nat) : ℚ) > 9/10))
    ∧ (("Notes", List.replicate 9 Value.none ++ [Value.str "note"])
        ∈ (remove_high_missing_columns
            ⟨10, [("Notes", List.replicate 9 Value.none ++ [Value.str "note"])]⟩
            (8/10)).cols
      ↔ ¬ ((missingCount (List.replicate 9 Value.none ++ [Value.str "note"]) : ℚ)
            / ((10 : Nat) : ℚ) > 8/10)) :=
  ⟨C5_kept_iff_not_exceeding
      ⟨10, [("Notes", List.replicate 9 Value.none ++ [Value.str "note"])]⟩ (9/10)
      ("Notes", List.replicate 9 Value.none ++ [Value.str "note"])
      (by decide) (by decide),
    C5_kept_iff_not_exceeding
      ⟨10, [("Notes", List.replicate 9 Value.none ++ [Value.str "note"])]⟩ (8/10)
      ("Notes", List.replicate 9 Value.none ++ [Value.str "note"])
      (by decide) (by decide)⟩

/-- C6: `remove_high_missing_columns` is idempotent — applying it twice
with the same threshold equals applying it once.  The row count is
unchanged by the first application, so the drop predicate is unchanged,
and filtering is idempotent. -/
theorem C6_remove_idempotent (df : Table) (t : ℚ) :
    remove_high_missing_columns (remove_high_missing_columns df t) t
      = remove_high_missing_columns df t := by
  have h : Table.mk df.nrows
      ((df.cols.filter (fun p => !(dropByMissing df.nrows t p.2))).filter
        (fun p => !(dropByMissing df.nrows t p.2)))
      = Table.mk df.nrows (df.cols.filter (fun p => !(dropByMissing df.nrows t p.2))) := by
    rw [List.filter_filter]
    congr 1
    exact List.filter_congr (fun p hp => by cases dropByMissing df.nrows t p.2 <;> rfl)
  exact h

/-- C7: on a zero-row table the missing proportion is the undefined 0/0
(NaN in pandas); since `NaN > threshold` is false, no column is dropped
and the function never raises: the table is returned with all its
columns intact, for every threshold. -/
theorem C7_zero_rows_identity (df : Table) (t : ℚ) (h : df.nrows = 0) :
    remove_high_missing_columns df t = df := by
  unfold remove_high_missing_columns
  have hall : ∀ p ∈ df.cols, (!(dropByMissing df.nrows t p.2)) = true := by
    intro p hp
    unfold dropByMissing
    rw [if_pos h]
    rfl
  rw [List.filter_eq_self.mpr hall]

/-- Witness for C7 at a concrete zero-row two-column table. -/
theorem C7_witness :
    remove_high_missing_columns (⟨0, [("A", []), ("B", [])]⟩ : Table) (1/2)
      = (⟨0, [("A", []), ("B", [])]⟩ : Table) :=
  C7_zero_rows_identity ⟨0, [("A", []), ("B", [])]⟩ (1/2) (by decide)

/-- C10: `remove_high_missing_columns` removes only whole columns: the
returned table has the same row count, and its column list is a sublist
of the input's — every retained column is present with exactly its
original per-row values, in the original order. -/
theorem C10_removes_only_whole_columns (df : Table) (t : ℚ) :
    (remove_high_missing_columns df t).nrows = df.nrows
    ∧ (remove_high_missing_columns df t).cols.Sublist df.cols :=
  ⟨rfl, List.filter_sublist df.cols⟩

/-- C8: in the match-all case of the aggregation layer (no filter
selected, as in `update_political_chart` with an empty selection), the
sum of the bucket counts of the resulting summary equals the number of
rows whose value in the group column is not missing. -/
theorem C8_match_all_total (t : Table) (fcol gcol : String) (gvs : List Value)
    (s : List (Value × Nat)) (hg : t.getCol gcol = Option.some gvs)
    (hs : filtered_count t fcol Option.none gcol = Option.some s) :
    (s.map Prod.snd).sum = (gvs.filter (fun v => !v.isNone)).length := by
  have hsv : s = value_counts gvs := by
    unfold filtered_count at hs
    rw [Option.some_bind, hg, Option.map_some'] at hs
    exact (Option.some.injEq _ _ ▸ hs).symm
  subst hsv
  unfold value_counts
  rw [List.map_map]
  have hcomp : (Prod.snd ∘ fun k => (k, (gvs.filter (fun v => !v.isNone)).count k))
      = fun k => (gvs.filter (fun v => !v.isNone)).count k := rfl
  rw [hcomp]
  exact List.sum_map_count_dedup_eq_length _

/-- Witness for C8: on a concrete table whose group column holds two
"L", one missing and one "C", the summary counts sum to 3, the number
of non-missing cells. -/
theorem C8_witness :
    (([(Value.str "L", 2), (Value.str "C", 1)].map Prod.snd).sum : Nat)
      = ([Value.str "L", Value.str "L", Value.none, Value.str "C"].filter
          (fun v => !v.isNone)).length :=
  C8_match_all_total
    ⟨4, [("Drink", [Value.str "L", Value.str "L", Value.none, Value.str "C"])]⟩
    "Aff" "Drink" [Value.str "L", Value.str "L", Value.none, Value.str "C"]
    [(Value.str "L", 2), (Value.str "C", 1)] (by decide) (by decide)

/-- C9: filtering by a value that matches no row of the filter column
yields the empty summary, not an error: the mask is all-false, every
column of the filtered table is empty, and `value_counts` of an empty
column is the empty mapping. -/
theorem C9_unmatched_filter_empty (t : Table) (fcol gcol : String) (v : Value)
    (fvs : List Value) (hf : t.getCol fcol = Option.some fvs)
    (hnm : ∀ x ∈ fvs, pyEq x v = false)
    (hg : (t.getCol gcol).isSome) :
    filtered_count t fcol (Option.some v) gcol = Option.some [] := by
  have hmask : ∀ b ∈ fvs.map (fun x => pyEq x v), b = false := by
    intro b hb
    obtain ⟨x, hx, hxb⟩ := List.mem_map.mp hb
    rw [← hxb]
    exact hnm x hx
  have hft : t.filterRowsEq fcol v
      = Option.some ⟨(((fvs.map (fun x => pyEq x v)).filter id)).length,
          t.cols.map (fun p => (p.1, applyMask (fvs.map (fun x => pyEq x v)) p.2))⟩ := by
    unfold Table.filterRowsEq
    rw [hf, Option.map_some']
  show (t.filterRowsEq fcol v).bind
      (fun ft => (ft.getCol gcol).map value_counts) = Option.some []
  rw [hft, Option.some_bind]
  have hgc : (Table.mk (((fvs.map (fun x => pyEq x v)).filter id)).length
        (t.cols.map (fun p => (p.1, applyMask (fvs.map (fun x => pyEq x v)) p.2)))).getCol gcol
      = (t.cols.find? (fun p => p.1 = gcol)).map
          (fun p => applyMask (fvs.map (fun x => pyEq x v)) p.2) := by
    unfold Table.getCol
    rw [find?_map_pair t.cols (applyMask (fvs.map (fun x => pyEq x v))) gcol,
      Option.map_map]
    rfl
  rw [hgc]
  unfold Table.getCol at hg
  cases hfind : t.cols.find? (fun p => p.1 = gcol) with
  | none => rw [hfind] at hg; simp at hg
  | some q =>
    rw [Option.map_some', Option.map_some', applyMask_all_false _ _ hmask]
    rfl

/-- Witness for C9: the spec's concrete scenario — filtering by
cups-per-day equal to 3 on a table where no row has that value returns
the empty summary. -/
theorem C9_witness :
    filtered_count
      ⟨3, [("How_many_cups_of_coffee_do_you_typically_drink_per_day",
              [Value.int 1, Value.int 2, Value.int 4]),
           ("What_is_your_age", [Value.str "25-34", Value.str "35-44", Value.none])]⟩
      "How_many_cups_of_coffee_do_you_typically_drink_per_day"
      (Option.some (Value.int 3)) "What_is_your_age" = Option.some [] :=
  C9_unmatched_filter_empty
    ⟨3, [("How_many_cups_of_coffee_do_you_typically_drink_per_day",
            [Value.int 1, Value.int 2, Value.int 4]),
         ("What_is_your_age", [Value.str "25-34", Value.str "35-44", Value.none])]⟩
    "How_many_cups_of_coffee_do_you_typically_drink_per_day" "What_is_your_age"
    (Value.int 3) [Value.int 1, Value.int 2, Value.int 4]
    (by decide) (by decide) (by decide)
